import Mathlib

/-!
Verification development for the `ideation-claude` repository.

The definitions below are a shallow embedding of the Python sources:
`src/ideation_claude/orchestrator.py` (the direct SDK orchestrator) and
`src/ideation_claude/orchestrator_webhook.py` (the webhook orchestrator).
Python floats are modelled as rationals, Python strings as Lean strings
(lists of characters), the text-generation backend and the memory service
as oracle parameters, and fallible Python statements (attribute access on
a dataclass, free-variable lookup) as `Except` computations.
-/

/-! ### Character and string helpers (Python semantics, ASCII fragment) -/

/-- ASCII lower-casing, used for the `re.IGNORECASE` literal comparison. -/
def lowerChar (c : Char) : Char :=
  if 'A' ≤ c ∧ c ≤ 'Z' then Char.ofNat (c.toNat + 32) else c

/-- ASCII upper-casing, as in Python `str.upper()` (ASCII fragment). -/
def upperChar (c : Char) : Char :=
  if 'a' ≤ c ∧ c ≤ 'z' then Char.ofNat (c.toNat - 32) else c

/-- Python `str.upper()` on the ASCII fragment. -/
def pyUpper (s : String) : String := String.mk (s.toList.map upperChar)

/-- Decimal digit test, the regex class `\d` (ASCII). -/
def isDigitChar (c : Char) : Bool := '0' ≤ c ∧ c ≤ '9'

/-- The regex class `\s` (ASCII fragment: space, tab, newline, CR, FF, VT). -/
def isSpaceChar (c : Char) : Bool :=
  c = ' ' ∨ c = '\t' ∨ c = '\n' ∨ c = '\x0d' ∨ c = '\x0c' ∨ c = '\x0b'

/-- The regex class `[:\s]` used in the score patterns. -/
def isColonSpaceChar (c : Char) : Bool := c = ':' ∨ isSpaceChar c

/-- Naive substring search on character lists (Python `in` on `str`). -/
def listContains (needle hay : List Char) : Bool :=
  match hay with
  | [] => needle.isEmpty
  | _ :: t => needle.isPrefixOf hay || listContains needle t

/-- Embeds `IdeationOrchestrator._is_eliminated`: the idea counts as eliminated
iff the upper-cased scoring text contains the substring ELIMINATE. -/
def is_eliminated (scoring_text : String) : Bool :=
  listContains "ELIMINATE".toList (pyUpper scoring_text).toList

/-! ### The score-extraction regexes of `_extract_score`

Each of the six patterns in `IdeationOrchestrator._extract_score` has the
shape: a sequence of case-insensitive literals and greedy character-class
stars, then the capture group `(\d+\.?\d*)`, then a literal tail.  In every
pattern each greedy star is followed by a literal whose first character is
outside the star class, and the capture is followed by a character that is
neither a digit nor a dot, so greedy matching without backtracking computes
exactly the Python `re.search` match. -/

/-- One token of a score pattern: a case-insensitive literal or a greedy
character-class star. -/
inductive RegTok where
  | lit (s : String)
  | star (cls : Char → Bool)

/-- A score pattern: prefix tokens, then the capture `(\d+\.?\d*)`, then a
literal tail. -/
structure ScorePattern where
  pre : List RegTok
  post : String

/-- Match a case-insensitive literal at the head of the input, returning the
remaining input. -/
def matchLit : List Char → List Char → Option (List Char)
  | [], cs => some cs
  | _ :: _, [] => none
  | p :: ps, c :: cs => if lowerChar c = lowerChar p then matchLit ps cs else none

/-- Match a token sequence at the head of the input (stars are greedy). -/
def matchToks : List RegTok → List Char → Option (List Char)
  | [], cs => some cs
  | .lit s :: ts, cs => match matchLit s.toList cs with
    | some cs' => matchToks ts cs'
    | none => none
  | .star cls :: ts, cs => matchToks ts (cs.dropWhile (fun c => cls c))

/-- Split off the maximal digit prefix. -/
def takeDigits (cs : List Char) : List Char × List Char :=
  (cs.takeWhile (fun c => isDigitChar c), cs.dropWhile (fun c => isDigitChar c))

/-- Match the capture group `(\d+\.?\d*)` at the head of the input, returning
the captured characters and the remaining input. -/
def matchNumber (cs : List Char) : Option (List Char × List Char) :=
  let (ds, r1) := takeDigits cs
  if ds.isEmpty then none
  else
    match r1 with
    | '.' :: r2 =>
      let (fs, r3) := takeDigits r2
      some (ds ++ '.' :: fs, r3)
    | _ => some (ds, r1)

/-- Match a whole score pattern at the head of the input, returning the
capture. -/
def matchPatternAt (p : ScorePattern) (cs : List Char) : Option (List Char) := do
  let r1 ← matchToks p.pre cs
  let (cap, r2) ← matchNumber r1
  let _ ← matchLit p.post.toList r2
  pure cap

/-- Embeds `re.search`: try the pattern at every start position, left to right. -/
def searchPattern (p : ScorePattern) : List Char → Option (List Char)
  | [] => matchPatternAt p []
  | c :: cs =>
    match matchPatternAt p (c :: cs) with
    | some cap => some cap
    | none => searchPattern p cs

/-- The fixed, ordered list of the six patterns of `_extract_score`. -/
def scorePatterns : List ScorePattern :=
  [⟨[.lit "**TOTAL**", .star isSpaceChar, .lit "|", .star isSpaceChar, .lit "**"], "/10**"⟩,
   ⟨[.lit "**TOTAL**", .star isColonSpaceChar, .lit "**"], "/10**"⟩,
   ⟨[.lit "TOTAL", .star isColonSpaceChar], "/10"⟩,
   ⟨[.lit "**Score**", .star isColonSpaceChar], "/10"⟩,
   ⟨[.lit "Total Score", .star isColonSpaceChar], ""⟩,
   ⟨[.lit "Score", .star isColonSpaceChar], "/10"⟩]

/-- Numeric value of a digit list (most significant first). -/
def digitsToNat (ds : List Char) : Nat :=
  ds.foldl (fun n c => 10 * n + (c.toNat - '0'.toNat)) 0

/-- Python `float()` of a captured `\d+\.?\d*` string, as an exact rational:
the digits around the dot, divided by ten to the number of fraction digits. -/
def parseDec (cs : List Char) : ℚ :=
  let intPart := takeDigits cs
  let fracPart := (intPart.2.drop 1).takeWhile (fun c => isDigitChar c)
  mkRat (Int.ofNat (digitsToNat (intPart.1 ++ fracPart))) (10 ^ fracPart.length)

/-- The pattern loop of `_extract_score`: return the float of the first
pattern that matches, else fall through. -/
def tryPatterns : List ScorePattern → List Char → ℚ
  | [], _ => 0
  | p :: ps, cs =>
    match searchPattern p cs with
    | some cap => parseDec cap
    | none => tryPatterns ps cs

/-- Embeds `IdeationOrchestrator._extract_score`. -/
def extract_score (scoring_text : String) : ℚ :=
  tryPatterns scorePatterns scoring_text.toList

/-- Sanity check mirroring `tests/test_orchestrator.py::test_extract_score`. -/
theorem extract_score_matches_unit_tests :
    extract_score "**TOTAL**: **6.5/10**" = 13 / 2 ∧
    extract_score "TOTAL: 7.0/10" = 7 ∧
    extract_score "Total Score: 8.5" = 17 / 2 ∧
    extract_score "Score: 5.0/10" = 5 ∧
    extract_score "No score here" = 0 := by
  have h1 : extract_score "**TOTAL**: **6.5/10**" = mkRat 65 10 := by decide
  have h3 : extract_score "Total Score: 8.5" = mkRat 85 10 := by decide
  refine ⟨?_, by decide, ?_, by decide, by decide⟩
  · rw [h1, Rat.mkRat_eq_div]; norm_num
  · rw [h3, Rat.mkRat_eq_div]; norm_num

/-- Substring search succeeds exactly when the needle occurs inside the hay. -/
theorem listContains_iff (n h : List Char) :
    listContains n h = true ↔ ∃ a b, h = a ++ n ++ b := by
  induction h with
  | nil =>
    constructor
    · intro hc
      refine ⟨[], [], ?_⟩
      have : n = [] := by simpa [listContains, List.isEmpty_iff] using hc
      simp [this]
    · rintro ⟨a, b, hab⟩
      have ha : (a = [] ∧ n = []) ∧ b = [] := by
        simpa using List.append_eq_nil.mp hab.symm
      simp [listContains, ha.1.2]
  | cons c t ih =>
    simp only [listContains, Bool.or_eq_true, ih]
    constructor
    · rintro (hp | ⟨a, b, rfl⟩)
      · obtain ⟨s, hs⟩ := List.isPrefixOf_iff_prefix.mp hp
        exact ⟨[], s, by simp [← hs]⟩
      · exact ⟨c :: a, b, rfl⟩
    · rintro ⟨a, b, hab⟩
      cases a with
      | nil =>
        left
        exact List.isPrefixOf_iff_prefix.mpr ⟨b, by simpa using hab.symm⟩
      | cons a0 a =>
        right
        refine ⟨a, b, ?_⟩
        simpa using congrArg List.tail hab

/-- Sanity check mirroring `tests/test_orchestrator.py::test_is_eliminated`. -/
theorem is_eliminated_matches_unit_tests :
    is_eliminated "ELIMINATE" = true ∧
    is_eliminated "eliminate" = true ∧
    is_eliminated "ELIMINATE this idea" = true ∧
    is_eliminated "PASS" = false ∧
    is_eliminated "" = false := by
  refine ⟨?_, ?_, ?_, ?_, ?_⟩ <;> decide

/-- The pattern loop returns the parse of the first matching pattern, else 0. -/
theorem tryPatterns_eq_findSome (ps : List ScorePattern) (cs : List Char) :
    tryPatterns ps cs =
      ((((ps.map (fun p => searchPattern p cs)).findSome? id).map parseDec).getD 0) := by
  induction ps with
  | nil => rfl
  | cons p ps ih =>
    simp only [tryPatterns, List.map_cons, List.findSome?_cons, id]
    cases h : searchPattern p cs with
    | none => simpa [h] using ih
    | some cap => simp [h]

/-- C4.  `_extract_score` tries the six patterns in their fixed order
(case-insensitively, via the caseless matcher) and returns the number captured
by the first pattern that matches, converted to a float; when no pattern
matches it returns 0.0.  The six patterns, in order, are exactly the entries
of `scorePatterns`. -/
theorem C4_extract_score_first_match (s : String) :
    extract_score s =
      ((((scorePatterns.map (fun p => searchPattern p s.toList)).findSome? id).map
        parseDec).getD 0) :=
  tryPatterns_eq_findSome scorePatterns s.toList

/-! ### Python error values and the pipeline data model -/

/-- Python exceptions that the embedded code can raise. -/
inductive PyErr where
  | attributeError (name : String)
  | nameError (name : String)
  | fileNotFoundError (name : String)
  | exc (message : String)
deriving DecidableEq

/-- Dataclass `ProblemValidationResult` with its field defaults. -/
structure ProblemValidationResult where
  research_insights : String := ""
  market_sizing : String := ""
  customer_discovery : String := ""
  problem_score : ℚ := 0
  problem_validated : Bool := false
  problem_eliminated : Bool := false
  problem_scoring_text : String := ""
deriving DecidableEq

/-- Dataclass `SolutionValidationResult` with its field defaults. -/
structure SolutionValidationResult where
  competitor_analysis : String := ""
  resource_findings : String := ""
  hypothesis : String := ""
  solution_score : ℚ := 0
  solution_validated : Bool := false
  solution_eliminated : Bool := false
  solution_scoring_text : String := ""
deriving DecidableEq

/-- Dataclass `IdeaResult` with its field defaults. -/
structure IdeaResult where
  topic : String
  problem_validation : ProblemValidationResult := {}
  solution_validation : SolutionValidationResult := {}
  research_insights : String := ""
  competitor_analysis : String := ""
  market_sizing : String := ""
  resource_findings : String := ""
  hypothesis : String := ""
  customer_discovery : String := ""
  scores : String := ""
  decision : String := ""
  pivot_suggestions : String := ""
  report : String := ""
  total_score : ℚ := 0
  eliminated : Bool := false
  scoring_iterations : Nat := 0
deriving DecidableEq

/-- Dataclass `PipelineState`: its only attributes are `problem`, `threshold`,
`session_id` and `results`. -/
structure PipelineState where
  problem : String
  threshold : ℚ
  session_id : Option String
  results : IdeaResult
deriving DecidableEq

/-- Constructing a `PipelineState` (including `__post_init__`, which replaces
`results` by a fresh `IdeaResult` whose topic is the problem statement). -/
def mkPipelineState (problem : String) (threshold : ℚ) : PipelineState :=
  { problem := problem, threshold := threshold, session_id := none,
    results := { topic := problem } }

/-- Python attribute read of a string-valued attribute on a `PipelineState`:
of the four dataclass attributes only `problem` holds a string; any other
name raises `AttributeError`. -/
def PipelineState.getStrAttr (st : PipelineState) (name : String) : Except PyErr String :=
  if name = "problem" then Except.ok st.problem
  else Except.error (PyErr.attributeError name)

/-! ### The agent backend and `_run_agent` -/

/-- A message yielded by `claude_code_sdk.query`; `content`/`session_id` are
`none` when the message object lacks the attribute (`hasattr` is false). -/
structure Message where
  content : Option String
  session_id : Option String
deriving DecidableEq

/-- The option record passed to `claude_code_sdk.query`. -/
structure ClaudeCodeOptions where
  system_prompt : String
  allowed_tools : List String
  max_turns : Nat
  resume : Option String
deriving DecidableEq

/-- The external text-generation backend: the agent prompt files under
`agents/` (absent ones raise `FileNotFoundError`) and the `query` call, which
returns a stream of messages or raises an exception. -/
structure AgentBackend where
  prompts : String → Option String
  query : String → ClaudeCodeOptions → Except String (List Message)

/-- Embeds `IdeationOrchestrator._get_agent_prompt`. -/
def get_agent_prompt (be : AgentBackend) (agent_name : String) : Except PyErr String :=
  match be.prompts agent_name with
  | some text => Except.ok text
  | none => Except.error (PyErr.fileNotFoundError agent_name)

/-- Python truthiness of the optional session id (`if self.state.session_id:`):
true iff present and non-empty. -/
def sessionTruthy : Option String → Bool
  | none => false
  | some s => decide (s ≠ "")

/-- The options built in `_run_agent`: `max_turns=15`, and `resume` set to the
stored session id exactly when that id is truthy. -/
def agentOptions (system_prompt : String) (allowed_tools : List String)
    (st : PipelineState) : ClaudeCodeOptions :=
  let base : ClaudeCodeOptions :=
    { system_prompt := system_prompt, allowed_tools := allowed_tools,
      max_turns := 15, resume := none }
  if sessionTruthy st.session_id then { base with resume := st.session_id } else base

/-- The `result_parts` collected by `_run_agent`: the contents of the messages
that carry a `content` attribute. -/
def collectContent (msgs : List Message) : List String :=
  msgs.filterMap (fun m => m.content)

/-- The session id after iterating the message stream: every message carrying
a truthy (non-empty) `session_id` overwrites the stored one. -/
def updateSession (sid : Option String) (msgs : List Message) : Option String :=
  msgs.foldl
    (fun acc m =>
      match m.session_id with
      | some s => if s ≠ "" then some s else acc
      | none => acc)
    sid

/-- Embeds `IdeationOrchestrator._run_agent`. -/
def run_agent (be : AgentBackend) (st : PipelineState) (agent_name prompt : String)
    (allowed_tools : List String) : Except PyErr (String × PipelineState) :=
  match get_agent_prompt be agent_name with
  | Except.error e => Except.error e
  | Except.ok system_prompt =>
    match be.query prompt (agentOptions system_prompt allowed_tools st) with
    | Except.error e => Except.error (PyErr.exc e)
    | Except.ok msgs =>
      Except.ok (String.intercalate "\n" (collectContent msgs),
        { st with session_id := updateSession st.session_id msgs })

/-- The head of a cons is the fallback of `getLast?` on the tail. -/
theorem getLast?_cons_orElse {α : Type} (a : α) (l : List α) :
    (a :: l).getLast? = (l.getLast? <|> some a) := by
  rw [List.getLast?_cons]
  cases h : l.getLast? <;> simp [h]

/-- The truthy session id carried by a message, if any. -/
def truthySession (m : Message) : Option String :=
  match m.session_id with
  | some s => if s = "" then none else some s
  | none => none

/-- The folded session update keeps the last truthy session id observed in the
message stream, and the stored one when none is observed. -/
theorem updateSession_eq_getLast (sid : Option String) (msgs : List Message) :
    updateSession sid msgs = ((msgs.filterMap truthySession).getLast? <|> sid) := by
  induction msgs generalizing sid with
  | nil => rfl
  | cons m t ih =>
    have step : updateSession sid (m :: t) =
        updateSession
          (match m.session_id with
           | some s => if s ≠ "" then some s else sid
           | none => sid) t := rfl
    rw [step, List.filterMap_cons]
    cases hm : m.session_id with
    | none =>
      have harg : truthySession m = none := by simp [truthySession, hm]
      simp only [harg]
      exact ih sid
    | some s =>
      by_cases hs : s = ""
      · subst hs
        have harg : truthySession m = none := by simp [truthySession, hm]
        simp only [harg]
        exact ih sid
      · have harg : truthySession m = some s := by simp [truthySession, hm, hs]
        simp only [harg]
        show updateSession (if s ≠ "" then some s else sid) t =
          ((s :: t.filterMap truthySession).getLast? <|> sid)
        rw [if_pos hs, ih (some s), getLast?_cons_orElse]
        cases hg : (t.filterMap truthySession).getLast? <;> simp [hg]

/-- C7.  Session continuity in `_run_agent`: a freshly constructed pipeline
state carries no session id; the options pass the stored session id as the
`resume` option exactly when it is set (truthy); `_run_agent` hands exactly
these options to `query`; and after the call the stored session id is the
last non-empty session id carried by the returned messages, unchanged when no
message carries one — so a later agent call resumes from the session observed
by an earlier one. -/
theorem C7_session_continuity (be : AgentBackend) (st : PipelineState)
    (agent_name prompt system_prompt : String) (tools : List String) :
    ((mkPipelineState agent_name 5).session_id = none) ∧
    ((agentOptions system_prompt tools st).resume
        = if sessionTruthy st.session_id then st.session_id else none) ∧
    (be.prompts agent_name = some system_prompt →
      run_agent be st agent_name prompt tools =
        match be.query prompt (agentOptions system_prompt tools st) with
        | Except.error e => Except.error (PyErr.exc e)
        | Except.ok msgs =>
          Except.ok (String.intercalate "\n" (collectContent msgs),
            { st with session_id := updateSession st.session_id msgs })) ∧
    (∀ msgs : List Message,
      updateSession st.session_id msgs =
        ((msgs.filterMap truthySession).getLast? <|> st.session_id)) := by
  refine ⟨rfl, ?_, ?_, fun msgs => updateSession_eq_getLast st.session_id msgs⟩
  · unfold agentOptions
    by_cases h : sessionTruthy st.session_id = true
    · simp [h]
    · simp [Bool.not_eq_true] at h; simp [h]
  · intro hp
    unfold run_agent get_agent_prompt
    rw [hp]

/-- Concrete backend for the C7 witness: every query yields one message with
text and a session id. -/
def beC7 : AgentBackend :=
  ⟨fun _ => some "sys", fun _ _ => Except.ok [⟨some "Test response", some "sess-1"⟩]⟩

/-- Witness for C7 at a concrete backend and fresh state. -/
theorem C7_witness :
    (agentOptions "sys" [] (mkPipelineState "Test Idea" 5)).resume = none ∧
    run_agent beC7 (mkPipelineState "Test Idea" 5) "researcher" "Test prompt" [] =
      Except.ok ("Test response",
        { mkPipelineState "Test Idea" 5 with session_id := some "sess-1" }) := by
  obtain ⟨h1, h2, h3, h4⟩ :=
    C7_session_continuity beC7 (mkPipelineState "Test Idea" 5) "researcher" "Test prompt" "sys" []
  constructor
  · rw [h2]; rfl
  · rw [h3 rfl]; rfl

/-! ### `_generate_phase_summary` -/

/-- Python string slicing `s[:n]`: the first `n` characters. -/
def pyTake (n : Nat) (s : String) : String := String.mk (s.toList.take n)

/-- Python `str.strip()` (ASCII whitespace fragment). -/
def pyStrip (s : String) : String :=
  String.mk
    (((s.toList.dropWhile (fun c => isSpaceChar c)).reverse.dropWhile
      (fun c => isSpaceChar c)).reverse)

/-- The summarisation prompt built by `_generate_phase_summary` (the phase
output truncated to 3000 characters). -/
def summaryPrompt (phase_name phase_output problem : String) : String :=
  "Generate a concise summary (2-3 sentences) of what was discovered in the " ++ phase_name ++
    " phase for this problem: " ++ problem ++ "\n\nPhase Output:\n" ++ pyTake 3000 phase_output ++
    "\n\nProvide a brief summary focusing on:\n- Key findings\n- Important insights\n- Critical information discovered\n\nKeep it concise and actionable."

/-- Embeds `IdeationOrchestrator._generate_phase_summary`: summarise via the
report-generator agent, keeping the first five lines stripped; on any
exception fall back to a truncation of the phase output. -/
def generate_phase_summary (be : AgentBackend) (st : PipelineState)
    (phase_name phase_output problem : String) : String × PipelineState :=
  match run_agent be st "report_generator" (summaryPrompt phase_name phase_output problem) [] with
  | Except.ok (summary, st') =>
    (pyStrip (String.intercalate "\n" ((summary.splitOn "\n").take 5)), st')
  | Except.error _ =>
    ("Phase " ++ phase_name ++ " completed. Key findings: " ++ pyTake 500 phase_output ++ "...", st)

/-- C9.  `_generate_phase_summary` always returns normally: when the
summarising agent call raises any exception it returns the fallback string
built from the phase name and the first 500 characters of the phase output,
and otherwise the first five lines of the agent summary, stripped. -/
theorem C9_phase_summary_fallback (be : AgentBackend) (st : PipelineState)
    (phase_name phase_output problem : String) :
    (∀ e, run_agent be st "report_generator"
          (summaryPrompt phase_name phase_output problem) [] = Except.error e →
        generate_phase_summary be st phase_name phase_output problem =
          ("Phase " ++ phase_name ++ " completed. Key findings: " ++
            pyTake 500 phase_output ++ "...", st)) ∧
    (∀ summary st', run_agent be st "report_generator"
          (summaryPrompt phase_name phase_output problem) [] = Except.ok (summary, st') →
        generate_phase_summary be st phase_name phase_output problem =
          (pyStrip (String.intercalate "\n" ((summary.splitOn "\n").take 5)), st')) := by
  constructor
  · intro e he
    unfold generate_phase_summary
    rw [he]
  · intro summary st' hok
    unfold generate_phase_summary
    rw [hok]

/-- Backend for the C9 witness: the report-generator prompt file is missing,
so the summarising agent call raises. -/
def beC9 : AgentBackend := ⟨fun _ => none, fun _ _ => Except.ok []⟩

/-- Witness for C9: with a raising agent call the fallback string is
returned and the state is unchanged. -/
theorem C9_witness :
    generate_phase_summary beC9 (mkPipelineState "p" 5) "research" "OUT" "p" =
      ("Phase research completed. Key findings: OUT...", mkPipelineState "p" 5) := by
  have h := (C9_phase_summary_fallback beC9 (mkPipelineState "p" 5) "research" "OUT" "p").1
    (PyErr.fileNotFoundError "report_generator") rfl
  rw [h]
  decide

/-! ### `run_problem_validation` -/

/-- The external memory service, seen through the reads
`run_problem_validation` makes: `get_similar_ideas_context` (the
`check_if_similar_eliminated` lookup is only logged, and the save calls only
write to the external store). -/
structure MemoryService where
  similarIdeasContext : String → String

/-- Stand-in for the f-string rendering of a Python float (for example the
threshold interpolated into prompts); number-formatting fidelity is not
needed by any claim, the rendered text only feeds the opaque backend. -/
def pyNumStr (q : ℚ) : String := toString q

/-- The research prompt (with the similar-ideas context appended when
non-empty). -/
def researchPrompt (problem similar_context : String) : String :=
  "Research market trends and customer pain points for this problem: " ++ problem ++
    (if similar_context ≠ "" then "\n\n" ++ similar_context else "")

/-- The market-sizing prompt. -/
def marketPrompt (problem research_insights : String) : String :=
  "Analyze market size for this problem: " ++ problem ++ "\n\nResearch context:\n" ++
    pyTake 2000 research_insights

/-- The customer-discovery prompt. -/
def customerPrompt (problem research_insights market_sizing : String) : String :=
  "Plan customer discovery interviews for this problem: " ++ problem ++ "\n\n" ++
    "Research Insights:\n" ++ pyTake 1500 research_insights ++ "\n\n" ++
    "Market Sizing:\n" ++ pyTake 1500 market_sizing

/-- The `problem_context` block assembled before problem scoring. -/
def problemContext (problem research market customer : String) : String :=
  "\nProblem Statement: " ++ problem ++
    "\n\nResearch Insights (Market Trends & Pain Points):\n" ++ pyTake 2000 research ++
    "\n\nMarket Sizing (TAM/SAM/SOM):\n" ++ pyTake 2000 market ++
    "\n\nCustomer Discovery Plan:\n" ++ pyTake 1500 customer ++ "\n"

/-- The problem-scoring prompt; the threshold is interpolated twice, and the
scoring agent is asked (in text) to mark ELIMINATED below it. -/
def problemScoringPrompt (problem : String) (threshold : ℚ) (problem_context : String) : String :=
  "Score the PROBLEM VALIDATION for this problem: " ++ problem ++
    "\n\nFocus on validating the PROBLEM, not the solution. Evaluate:\n" ++
    "1. **Problem Clarity** (1-10): How clearly defined is the problem? Is it a real pain point?\n" ++
    "2. **Market Need** (1-10): How strong is the market demand for solving this problem?\n" ++
    "3. **Market Size** (1-10): What is the addressable market size (TAM/SAM/SOM)?\n" ++
    "4. **Customer Validation** (1-10): How testable/validatable is the problem with customers?\n" ++
    "5. **Problem Urgency** (1-10): How urgent is solving this problem for customers?\n" ++
    "6. **Problem Frequency** (1-10): How often do customers encounter this problem?\n" ++
    "7. **Problem Severity** (1-10): How severe is the pain when customers face this problem?\n" ++
    "8. **Evidence Quality** (1-10): What evidence exists that this is a real problem?\n" ++
    "\nElimination threshold: " ++ pyNumStr threshold ++
    "\n\n" ++ problem_context ++
    "\n\nProvide a detailed scoring with justification for each criterion, then calculate the average.\nIf the average score < " ++
    pyNumStr threshold ++ ", mark as ELIMINATED.\n"

/-- After a phase, when memory is enabled: save the phase output, generate a
summary via the report-generator agent and save it.  Only the summarising
agent call affects the pipeline state; the saves are external writes. -/
def memPhaseSummary (be : AgentBackend) (mem : Option MemoryService)
    (st : PipelineState) (phase_name phase_output problem : String) : PipelineState :=
  match mem with
  | some _ => (generate_phase_summary be st phase_name phase_output problem).2
  | none => st

/-- The `ProblemValidationResult` assembled at the end of
`run_problem_validation`: score extracted from the scoring text, eliminated
iff the text says ELIMINATE, validated iff not eliminated. -/
def scoreProblemResult (research market customer scoring_text : String) :
    ProblemValidationResult :=
  { research_insights := research,
    market_sizing := market,
    customer_discovery := customer,
    problem_score := extract_score scoring_text,
    problem_eliminated := is_eliminated scoring_text,
    problem_validated := !(is_eliminated scoring_text),
    problem_scoring_text := scoring_text }

/-- The similar-ideas context fetched from memory at the start of problem
validation (empty when memory is disabled). -/
def similarContextOf (mem : Option MemoryService) (problem : String) : String :=
  match mem with
  | some m => m.similarIdeasContext problem
  | none => ""

/-- Embeds `IdeationOrchestrator.run_problem_validation` (the `verbose`/`monitor`
arguments only control logging and are omitted; `parallel` is unused in the
source body). -/
def run_problem_validation (be : AgentBackend) (mem : Option MemoryService)
    (st : PipelineState) : Except PyErr (ProblemValidationResult × PipelineState) :=
  let problem := st.problem
  let similar_context := similarContextOf mem problem
  match run_agent be st "researcher" (researchPrompt problem similar_context) ["WebSearch"] with
  | Except.error e => Except.error e
  | Except.ok (research_insights, st) =>
    let st := memPhaseSummary be mem st "research" research_insights problem
    match run_agent be st "market_analyst" (marketPrompt problem research_insights)
        ["WebSearch"] with
    | Except.error e => Except.error e
    | Except.ok (market_sizing, st) =>
      let st := memPhaseSummary be mem st "market_sizing" market_sizing problem
      match run_agent be st "customer_discovery"
          (customerPrompt problem research_insights market_sizing) [] with
      | Except.error e => Except.error e
      | Except.ok (customer_discovery, st) =>
        let st := memPhaseSummary be mem st "customer_discovery" customer_discovery problem
        match run_agent be st "scoring_evaluator"
            (problemScoringPrompt problem st.threshold
              (problemContext problem research_insights market_sizing customer_discovery))
            [] with
        | Except.error e => Except.error e
        | Except.ok (problem_scoring_text, st) =>
          Except.ok
            (scoreProblemResult research_insights market_sizing customer_discovery
              problem_scoring_text, st)

/-- C1 (amended).  The elimination decision of `IdeationOrchestrator` is not
a numeric comparison: every problem-validation result marks the problem
eliminated exactly when the scoring text contains the substring ELIMINATE
(case-insensitively), independently of the extracted score and of the
threshold, which reaches the decision only through the prompt text sent to
the scoring agent.  (The webhook orchestrator separately compares its
placeholder scores against the threshold.) -/
theorem C1_elimination_is_substring_check (be : AgentBackend) (mem : Option MemoryService)
    (st : PipelineState) (r : ProblemValidationResult) (st' : PipelineState)
    (h : run_problem_validation be mem st = Except.ok (r, st')) :
    r.problem_eliminated = is_eliminated r.problem_scoring_text ∧
    r.problem_score = extract_score r.problem_scoring_text ∧
    r.problem_validated = !r.problem_eliminated ∧
    (r.problem_eliminated = true ↔
      ∃ a b, (pyUpper r.problem_scoring_text).toList = a ++ "ELIMINATE".toList ++ b) := by
  have key : ∃ a b c t, r = scoreProblemResult a b c t := by
    unfold run_problem_validation at h
    dsimp only at h
    split at h
    · cases h
    · split at h
      · cases h
      · split at h
        · cases h
        · split at h
          · cases h
          · simp only [Except.ok.injEq, Prod.mk.injEq] at h
            exact ⟨_, _, _, _, h.1.symm⟩
  obtain ⟨a, b, c, t, rfl⟩ := key
  refine ⟨rfl, rfl, rfl, ?_⟩
  exact listContains_iff "ELIMINATE".toList (pyUpper t).toList

/-- Backend used for the C1 counterexample and witness: every agent call
returns the single message TOTAL: 2/10 with no session id. -/
def beC1 : AgentBackend :=
  ⟨fun _ => some "sys", fun _ _ => Except.ok [⟨some "TOTAL: 2/10", none⟩]⟩

/-- C1 is false on the code at a concrete input: with threshold 5, a scoring
text whose extracted score is 2 (below the threshold) is NOT marked
eliminated, because `_is_eliminated` only looks for the substring ELIMINATE. -/
theorem C1_counterexample :
    run_problem_validation beC1 none (mkPipelineState "p" 5) =
      Except.ok (scoreProblemResult "TOTAL: 2/10" "TOTAL: 2/10" "TOTAL: 2/10" "TOTAL: 2/10",
        mkPipelineState "p" 5) ∧
    (scoreProblemResult "TOTAL: 2/10" "TOTAL: 2/10" "TOTAL: 2/10"
      "TOTAL: 2/10").problem_score = 2 ∧
    (2 : ℚ) < (mkPipelineState "p" 5).threshold ∧
    (scoreProblemResult "TOTAL: 2/10" "TOTAL: 2/10" "TOTAL: 2/10"
      "TOTAL: 2/10").problem_eliminated = false := by
  refine ⟨rfl, ?_, ?_, by decide⟩
  · show extract_score "TOTAL: 2/10" = 2
    decide
  · show (2 : ℚ) < 5
    decide

/-- Witness for the amended C1 theorem at a concrete run. -/
theorem C1_witness :
    (scoreProblemResult "TOTAL: 2/10" "TOTAL: 2/10" "TOTAL: 2/10"
        "TOTAL: 2/10").problem_eliminated =
      is_eliminated (scoreProblemResult "TOTAL: 2/10" "TOTAL: 2/10" "TOTAL: 2/10"
        "TOTAL: 2/10").problem_scoring_text ∧
    (scoreProblemResult "TOTAL: 2/10" "TOTAL: 2/10" "TOTAL: 2/10"
        "TOTAL: 2/10").problem_score =
      extract_score (scoreProblemResult "TOTAL: 2/10" "TOTAL: 2/10" "TOTAL: 2/10"
        "TOTAL: 2/10").problem_scoring_text := by
  have h := C1_elimination_is_substring_check beC1 none (mkPipelineState "p" 5)
    (scoreProblemResult "TOTAL: 2/10" "TOTAL: 2/10" "TOTAL: 2/10" "TOTAL: 2/10")
    (mkPipelineState "p" 5) rfl
  exact ⟨h.1, h.2.1⟩

/-! ### The solution-validation phase of `run_pipeline` -/

/-- The competitor-analysis prompt. -/
def competitorPrompt (problem research_insights : String) : String :=
  "Analyze existing solutions and competitors for this problem: " ++ problem ++
    "\n\nProblem Context:\n" ++ pyTake 2000 research_insights

/-- The resource-scout prompt. -/
def resourcePrompt (problem research_insights competitor_analysis : String) : String :=
  "Find resources and assess technical feasibility for solving this problem: " ++ problem ++
    "\n\n" ++ "Problem Context:\n" ++ pyTake 2000 research_insights ++ "\n\n" ++
    "Competitor Analysis:\n" ++ pyTake 1500 competitor_analysis

/-- The `solution_context` block assembled before the hypothesis phase. -/
def solutionContext (pr : ProblemValidationResult) (competitor resources : String) : String :=
  "\nProblem Validation:\n- Research Insights: " ++ pyTake 1500 pr.research_insights ++
    "\n- Market Sizing: " ++ pyTake 1500 pr.market_sizing ++
    "\n- Customer Discovery: " ++ pyTake 1000 pr.customer_discovery ++
    "\n\nSolution Context:\n- Competitor Analysis: " ++ pyTake 1500 competitor ++
    "\n- Resources & Feasibility: " ++ pyTake 1500 resources ++ "\n"

/-- The hypothesis-architect prompt. -/
def hypothesisPrompt (problem solution_context : String) : String :=
  "Extract riskiest assumptions and define MVP for solving this problem: " ++ problem ++
    "\n\n" ++ solution_context

/-- The `full_solution_context` block assembled before solution scoring. -/
def fullSolutionContext (pr : ProblemValidationResult)
    (competitor resources hypothesis : String) : String :=
  "\nProblem Validation (Score: " ++ pyNumStr pr.problem_score ++ "/10):\n- Research Insights: " ++
    pyTake 2000 pr.research_insights ++
    "\n- Market Sizing: " ++ pyTake 2000 pr.market_sizing ++
    "\n- Customer Discovery: " ++ pyTake 1500 pr.customer_discovery ++
    "\n\nSolution Validation:\n- Competitor Analysis: " ++ pyTake 2000 competitor ++
    "\n- Resources & Feasibility: " ++ pyTake 2000 resources ++
    "\n- Hypothesis & MVP: " ++ pyTake 1500 hypothesis ++ "\n"

/-- The solution-scoring prompt. -/
def solutionScoringPrompt (problem : String) (pScore threshold : ℚ)
    (full_solution_context : String) : String :=
  "Score the SOLUTION VALIDATION for solving this problem: " ++ problem ++
    "\n\nFocus on validating the SOLUTION, not just the problem. Evaluate:\n" ++
    "1. **Solution Fit** (1-10): How well does the solution address the validated problem?\n" ++
    "2. **Competitive Advantage** (1-10): How differentiated is this solution from competitors?\n" ++
    "3. **Technical Feasibility** (1-10): How feasible is building this solution?\n" ++
    "4. **Resource Availability** (1-10): What resources/tools/APIs are available to build this?\n" ++
    "5. **MVP Clarity** (1-10): How clear and testable is the MVP?\n" ++
    "6. **Assumption Testability** (1-10): How easy/cheap is it to test key assumptions?\n" ++
    "7. **Solution Timing** (1-10): Is the timing right for this solution?\n" ++
    "8. **Solution Scalability** (1-10): Can this solution scale effectively?\n" ++
    "\nProblem Validation Score: " ++ pyNumStr pScore ++ "/10\nElimination threshold: " ++
    pyNumStr threshold ++ "\n\n" ++ full_solution_context ++
    "\n\nProvide a detailed scoring with justification for each criterion, then calculate the average.\nIf the average score < " ++
    pyNumStr threshold ++ ", mark as ELIMINATED.\n"

/-- The legacy `scores` text assembled after both scoring phases. -/
def scoresText (pScore sScore total : ℚ) (pText sText : String) : String :=
  "Problem Score: " ++ pyNumStr pScore ++ "/10\nSolution Score: " ++ pyNumStr sScore ++
    "/10\nCombined Score: " ++ pyNumStr total ++ "/10\n\nProblem Validation:\n" ++
    pyTake 1500 pText ++ "\n\nSolution Validation:\n" ++ pyTake 1500 sText

/-- The solution-validation phase of `run_pipeline` (source lines 477-631):
competitor analysis, resource scouting, hypothesis, solution scoring, then the
combination of the two scores with weights 0.6 and 0.4.  The name `problem`
is free in this part of the Python function body, so its lookup is passed in
as `problemVar` (which `run_pipeline` instantiates with a `NameError`). -/
def solutionPhase (be : AgentBackend) (mem : Option MemoryService) (st : PipelineState)
    (problemVar : Except PyErr String) (problem_result : ProblemValidationResult)
    (results : IdeaResult) :
    Except PyErr (SolutionValidationResult × IdeaResult × PipelineState × String) :=
  match problemVar with
  | Except.error e => Except.error e
  | Except.ok problem =>
    match run_agent be st "competitor_analyst"
        (competitorPrompt problem problem_result.research_insights) ["WebSearch"] with
    | Except.error e => Except.error e
    | Except.ok (competitor_analysis, st) =>
      let st := memPhaseSummary be mem st "competitor_analysis" competitor_analysis problem
      match run_agent be st "resource_scout"
          (resourcePrompt problem problem_result.research_insights competitor_analysis)
          ["WebSearch"] with
      | Except.error e => Except.error e
      | Except.ok (resource_findings, st) =>
        let st := memPhaseSummary be mem st "resource_findings" resource_findings problem
        match run_agent be st "hypothesis_architect"
            (hypothesisPrompt problem
              (solutionContext problem_result competitor_analysis resource_findings)) [] with
        | Except.error e => Except.error e
        | Except.ok (hypothesis, st) =>
          let st := memPhaseSummary be mem st "hypothesis" hypothesis problem
          match run_agent be st "scoring_evaluator"
              (solutionScoringPrompt problem problem_result.problem_score st.threshold
                (fullSolutionContext problem_result competitor_analysis resource_findings
                  hypothesis)) [] with
          | Except.error e => Except.error e
          | Except.ok (solution_scoring_text, st) =>
            let solution_result : SolutionValidationResult :=
              { competitor_analysis := competitor_analysis,
                resource_findings := resource_findings,
                hypothesis := hypothesis,
                solution_score := extract_score solution_scoring_text,
                solution_validated := !(is_eliminated solution_scoring_text),
                solution_eliminated := is_eliminated solution_scoring_text,
                solution_scoring_text := solution_scoring_text }
            let total := problem_result.problem_score * (0.6 : ℚ) +
              solution_result.solution_score * (0.4 : ℚ)
            let results := { results with
              total_score := total,
              eliminated := problem_result.problem_eliminated ||
                solution_result.solution_eliminated,
              solution_validation := solution_result,
              competitor_analysis := competitor_analysis,
              resource_findings := resource_findings,
              hypothesis := hypothesis,
              scores := scoresText problem_result.problem_score solution_result.solution_score
                total problem_result.problem_scoring_text solution_scoring_text }
            Except.ok (solution_result, results, st,
              fullSolutionContext problem_result competitor_analysis resource_findings
                hypothesis)

/-! ### The pivot/report branches of `run_pipeline` -/

/-- The pivot-advisor prompt. -/
def pivotPrompt (problem : String) (total : ℚ) (scores : String) : String :=
  "Suggest alternative approaches for solving this problem: " ++ problem ++
    "\n\nScore: " ++ pyNumStr total ++ "/10\nScoring details:\n" ++ pyTake 1500 scores

/-- The report prompt for an eliminated idea. -/
def eliminatedReportPrompt (problem : String) (pScore sScore total threshold : ℚ)
    (full_solution_context : String) : String :=
  "Generate the final evaluation report for this problem: " ++ problem ++
    "\n\nDecision: ELIMINATED\nProblem Score: " ++ pyNumStr pScore ++ "/10\nSolution Score: " ++
    pyNumStr sScore ++ "/10\nCombined Score: " ++ pyNumStr total ++ "/10\nThreshold: " ++
    pyNumStr threshold ++ "\n\n" ++ full_solution_context

/-- The report prompt for a passed idea. -/
def passedReportPrompt (problem : String) (pScore sScore total threshold : ℚ)
    (full_solution_context : String) : String :=
  "Generate the final evaluation report for this problem: " ++ problem ++
    "\n\nDecision: PASSED\nProblem Score: " ++ pyNumStr pScore ++ "/10\nSolution Score: " ++
    pyNumStr sScore ++ "/10\nCombined Score: " ++ pyNumStr total ++ "/10\nThreshold: " ++
    pyNumStr threshold ++ "\n\n" ++ full_solution_context

/-- The `parallel=False` branch of phase 5: run the pivot advisor, then the
report generator, sequentially. -/
def pivotReportSequential (be : AgentBackend) (st : PipelineState) (problem : String)
    (pr : ProblemValidationResult) (sr : SolutionValidationResult) (results : IdeaResult)
    (full_solution_context : String) : Except PyErr ((String × String) × PipelineState) :=
  match run_agent be st "pivot_advisor"
      (pivotPrompt problem results.total_score results.scores) [] with
  | Except.error e => Except.error e
  | Except.ok (pivot_suggestions, st) =>
    match run_agent be st "report_generator"
        (eliminatedReportPrompt problem pr.problem_score sr.solution_score results.total_score
          st.threshold full_solution_context) [] with
    | Except.error e => Except.error e
    | Except.ok (report, st) => Except.ok ((pivot_suggestions, report), st)

/-- The `parallel=True` branch of phase 5: the two independent tasks are
created and awaited together with `asyncio.gather`.  Both coroutines read the
pre-branch session id when they start (the report task is scheduled before
the pivot messages arrive), and the session updates land in gather order. -/
def pivotReportParallel (be : AgentBackend) (st : PipelineState) (problem : String)
    (pr : ProblemValidationResult) (sr : SolutionValidationResult) (results : IdeaResult)
    (full_solution_context : String) : Except PyErr ((String × String) × PipelineState) :=
  match run_agent be st "pivot_advisor"
      (pivotPrompt problem results.total_score results.scores) [] with
  | Except.error e => Except.error e
  | Except.ok (pivot_suggestions, st1) =>
    match run_agent be { st1 with session_id := st.session_id } "report_generator"
        (eliminatedReportPrompt problem pr.problem_score sr.solution_score results.total_score
          st.threshold full_solution_context) [] with
    | Except.error e => Except.error e
    | Except.ok (report, st2) => Except.ok ((pivot_suggestions, report), st2)

/-! ### `run_pipeline` -/

/-- The report prompt for a problem that failed validation (the early-stop
branch uses the local `topic` read from the state). -/
def problemEliminatedReportPrompt (topic : String) (pScore threshold : ℚ)
    (pText : String) : String :=
  "Generate problem validation report for: " ++ topic ++
    "\n\nDecision: ELIMINATED (Problem Not Validated)\nProblem Score: " ++ pyNumStr pScore ++
    "/10\nThreshold: " ++ pyNumStr threshold ++ "\n\nProblem Validation Results:\n" ++
    pyTake 2000 pText

/-- Embeds `IdeationOrchestrator.run_pipeline`.

The Python body starts with `topic = self.state.topic`, but the
`PipelineState` dataclass has no attribute `topic` (its attributes are
`problem`, `threshold`, `session_id` and `results`), so this read is the
checked attribute access `getStrAttr st "topic"`.  The body also uses a name
`problem` that is bound nowhere in the function, embedded as `problemVar`
(a `NameError` lookup) and forced wherever the source evaluates `problem`:
in the memory saves and in every solution-phase and phase-5 prompt. -/
def run_pipeline (be : AgentBackend) (mem : Option MemoryService) (st : PipelineState)
    (parallel problem_only : Bool) : Except PyErr (IdeaResult × PipelineState) :=
  match st.getStrAttr "topic" with
  | Except.error e => Except.error e
  | Except.ok topic =>
    let results := st.results
    let problemVar : Except PyErr String := Except.error (PyErr.nameError "problem")
    match run_problem_validation be mem st with
    | Except.error e => Except.error e
    | Except.ok (problem_result, st) =>
      let results := { results with
        problem_validation := problem_result,
        research_insights := problem_result.research_insights,
        market_sizing := problem_result.market_sizing,
        customer_discovery := problem_result.customer_discovery }
      if problem_result.problem_eliminated then
        let results := { results with
          eliminated := true,
          decision := "ELIMINATED (Problem Not Validated)",
          total_score := problem_result.problem_score }
        match (if problem_only then Except.ok (results, st)
          else
            match run_agent be st "report_generator"
                (problemEliminatedReportPrompt topic problem_result.problem_score st.threshold
                  problem_result.problem_scoring_text) [] with
            | Except.error e => Except.error e
            | Except.ok (report, st) => Except.ok ({ results with report := report }, st)) with
        | Except.error e => Except.error e
        | Except.ok (results, st) =>
          match mem with
          | some _ =>
            (match problemVar with
             | Except.error e => Except.error e
             | Except.ok _ => Except.ok (results, st))
          | none => Except.ok (results, st)
      else if problem_only then
        Except.ok ({ results with
          eliminated := false,
          decision := "PASSED (Problem Validated)",
          total_score := problem_result.problem_score }, st)
      else
        match solutionPhase be mem st problemVar problem_result results with
        | Except.error e => Except.error e
        | Except.ok (solution_result, results, st, full_solution_context) =>
          match (if results.eliminated then
              match problemVar with
              | Except.error e => Except.error e
              | Except.ok problem =>
                if parallel then
                  pivotReportParallel be st problem problem_result solution_result results
                    full_solution_context
                else
                  pivotReportSequential be st problem problem_result solution_result results
                    full_solution_context
            else
              match problemVar with
              | Except.error e => Except.error e
              | Except.ok problem =>
                match run_agent be st "report_generator"
                    (passedReportPrompt problem problem_result.problem_score
                      solution_result.solution_score results.total_score st.threshold
                      full_solution_context) [] with
                | Except.error e => Except.error e
                | Except.ok (report, st) =>
                  Except.ok (("N/A - Idea passed evaluation", report), st)) with
          | Except.error e => Except.error e
          | Except.ok ((pivot_suggestions, report), st) =>
            let results := { results with
              pivot_suggestions := pivot_suggestions,
              report := report,
              decision := if results.eliminated then "ELIMINATED" else "PASSED" }
            match mem with
            | some _ =>
              (match problemVar with
               | Except.error e => Except.error e
               | Except.ok _ => Except.ok (results, st))
            | none => Except.ok (results, st)

/-- C2.  The claim fails on the code: for every backend, memory setting,
state and flags, `run_pipeline` raises `AttributeError` on its very first
statement, the read `self.state.topic` of an attribute that `PipelineState`
does not define (the tests of the repository still construct
`PipelineState(topic=...)`, showing the rename drift). -/
theorem C2_run_pipeline_always_attribute_error (be : AgentBackend)
    (mem : Option MemoryService) (st : PipelineState) (parallel problem_only : Bool) :
    run_pipeline be mem st parallel problem_only =
      Except.error (PyErr.attributeError "topic") := rfl

/-- Backend whose scoring responses mark the idea ELIMINATED with a low
score. -/
def beC5 : AgentBackend :=
  ⟨fun _ => some "sys", fun _ _ => Except.ok [⟨some "TOTAL: 3/10 - ELIMINATED", none⟩]⟩

/-- C5.  The early-stop branch is unreachable: even with agent responses
whose scoring text marks the problem ELIMINATED, `run_pipeline` raises
`AttributeError` on `self.state.topic` before problem validation ever runs,
so no run returns the claimed eliminated `IdeaResult`. -/
theorem C5_early_stop_unreachable :
    run_pipeline beC5 none (mkPipelineState "p" 5) true false =
      Except.error (PyErr.attributeError "topic") ∧
    is_eliminated "TOTAL: 3/10 - ELIMINATED" = true ∧
    extract_score "TOTAL: 3/10 - ELIMINATED" = 3 := by
  refine ⟨rfl, by decide, by decide⟩

/-- Formalises the phrase given the same agent responses: the replies of the
backend do not depend on
the `resume` option (the only field the two phase-5 branches disagree on). -/
def ResumeOblivious (be : AgentBackend) : Prop :=
  ∀ prompt sp tools mt r r',
    be.query prompt ⟨sp, tools, mt, r⟩ = be.query prompt ⟨sp, tools, mt, r'⟩

/-- The options record spelled out by components. -/
theorem agentOptions_eq (sp : String) (tools : List String) (st : PipelineState) :
    agentOptions sp tools st =
      ⟨sp, tools, 15, if sessionTruthy st.session_id then st.session_id else none⟩ := by
  unfold agentOptions
  dsimp only
  split <;> rfl

/-- A resume-oblivious backend answers the same query identically from any
two states. -/
theorem query_resume_oblivious (be : AgentBackend) (h : ResumeOblivious be)
    (prompt sp : String) (tools : List String) (stA stB : PipelineState) :
    be.query prompt (agentOptions sp tools stA) = be.query prompt (agentOptions sp tools stB) := by
  rw [agentOptions_eq, agentOptions_eq]
  exact h prompt sp tools 15 _ _

/-- With a resume-oblivious backend the returned TEXT of `_run_agent` does
not depend on the state the call is made from. -/
theorem run_agent_value_resume_oblivious (be : AgentBackend) (h : ResumeOblivious be)
    (stA stB : PipelineState) (agent_name prompt : String) (tools : List String) :
    (run_agent be stA agent_name prompt tools).map (fun x => x.1) =
      (run_agent be stB agent_name prompt tools).map (fun x => x.1) := by
  unfold run_agent
  cases hp : get_agent_prompt be agent_name with
  | error e => rfl
  | ok sp =>
    dsimp only
    rw [query_resume_oblivious be h prompt sp tools stA stB]
    cases hq : be.query prompt (agentOptions sp tools stB) <;> rfl

/-- Lemma: `_run_agent` changes only the session id of the state. -/
theorem run_agent_ok_state (be : AgentBackend) (st : PipelineState)
    (agent_name prompt : String) (tools : List String) (txt : String) (st' : PipelineState)
    (h : run_agent be st agent_name prompt tools = Except.ok (txt, st')) :
    st'.threshold = st.threshold ∧ st'.problem = st.problem ∧ st'.results = st.results := by
  unfold run_agent at h
  split at h
  · cases h
  · split at h
    · cases h
    · simp only [Except.ok.injEq, Prod.mk.injEq] at h
      rw [← h.2]
      exact ⟨rfl, rfl, rfl⟩

/-- C6.  In the eliminated phase-5 step the only concurrency is running the
fixed pair (pivot advisor, report generator) and awaiting both; given the
same agent responses (a resume-oblivious backend), the `parallel=True` branch
produces the same `(pivot_suggestions, report)` values as the sequential
`parallel=False` branch. -/
theorem C6_parallel_branch_equivalent (be : AgentBackend) (h : ResumeOblivious be)
    (st : PipelineState) (problem : String) (pr : ProblemValidationResult)
    (sr : SolutionValidationResult) (results : IdeaResult) (ctx : String) :
    (pivotReportParallel be st problem pr sr results ctx).map (fun x => x.1) =
      (pivotReportSequential be st problem pr sr results ctx).map (fun x => x.1) := by
  unfold pivotReportParallel pivotReportSequential
  cases h1 : run_agent be st "pivot_advisor"
      (pivotPrompt problem results.total_score results.scores) [] with
  | error e => rfl
  | ok v =>
    obtain ⟨pivot, st1⟩ := v
    dsimp only
    have hth : st1.threshold = st.threshold :=
      (run_agent_ok_state be st "pivot_advisor" _ [] pivot st1 h1).1
    conv_rhs => rw [hth]
    have hrep := run_agent_value_resume_oblivious be h
      { st1 with session_id := st.session_id } st1 "report_generator"
      (eliminatedReportPrompt problem pr.problem_score sr.solution_score results.total_score
        st.threshold ctx) []
    cases hA : run_agent be { st1 with session_id := st.session_id } "report_generator"
        (eliminatedReportPrompt problem pr.problem_score sr.solution_score results.total_score
          st.threshold ctx) [] with
    | error e =>
      rw [hA] at hrep
      cases hB : run_agent be st1 "report_generator"
          (eliminatedReportPrompt problem pr.problem_score sr.solution_score results.total_score
            st.threshold ctx) [] with
      | error e2 => rw [hB] at hrep; simp only [Except.map] at hrep; cases hrep; rfl
      | ok w => rw [hB] at hrep; simp only [Except.map] at hrep; cases hrep
    | ok v2 =>
      obtain ⟨report, st2⟩ := v2
      rw [hA] at hrep
      cases hB : run_agent be st1 "report_generator"
          (eliminatedReportPrompt problem pr.problem_score sr.solution_score results.total_score
            st.threshold ctx) [] with
      | error e2 => rw [hB] at hrep; simp only [Except.map] at hrep; cases hrep
      | ok w =>
        obtain ⟨report2, st3⟩ := w
        rw [hB] at hrep
        simp only [Except.map, Except.ok.injEq] at hrep
        subst hrep
        rfl

/-- Constant backend for the C6 witness (trivially resume-oblivious). -/
def beC6 : AgentBackend :=
  ⟨fun _ => some "sys", fun _ _ => Except.ok [⟨some "R", none⟩]⟩

/-- Witness for C6 at a concrete backend, state and phase results. -/
theorem C6_witness :
    (pivotReportParallel beC6 (mkPipelineState "p" 5) "p" {} {} { topic := "p" } "ctx").map
        (fun x => x.1) =
      (pivotReportSequential beC6 (mkPipelineState "p" 5) "p" {} {} { topic := "p" } "ctx").map
        (fun x => x.1) :=
  C6_parallel_branch_equivalent beC6 (fun _ _ _ _ _ _ => rfl) (mkPipelineState "p" 5) "p"
    {} {} { topic := "p" } "ctx"

/-! ### The webhook orchestrator (`orchestrator_webhook.py`) -/

/-- The webhook world as the orchestrator observes it: the outcome of the
k-th `_trigger_agent` call (HTTP 204 or not) and of the k-th
`_wait_for_phase` call (a Mem0 hit before timeout, or none). -/
structure WebhookEnv where
  trigger : Nat → Bool
  wait : Nat → Option Unit

/-- Embeds `WebhookOrchestratorResult`. -/
structure WebhookOrchestratorResult where
  session_id : String
  problem : String
  score : ℚ
  eliminated : Bool
  report : String
  phases_completed : List String
deriving DecidableEq

/-- The running position in the trigger/wait streams plus the
`phases_completed` accumulator. -/
structure WebhookStep where
  phases : List String
  t : Nat
  w : Nat
deriving DecidableEq

/-- One trigger-then-wait round of an agent loop: the label joins
`phases_completed` only when the poll returned a result. -/
def agentRound (env : WebhookEnv) (label : String) : WebhookStep → WebhookStep
  | ⟨phases, t, w⟩ =>
    if env.trigger t then
      ⟨if (env.wait w).isSome then phases ++ [label] else phases, t + 1, w + 1⟩
    else ⟨phases, t + 1, w⟩

/-- One completion round (pivot advisor, report generator): the poll result is
discarded and the label joins `phases_completed` unconditionally. -/
def completionRound (env : WebhookEnv) (label : String) : WebhookStep → WebhookStep
  | ⟨phases, t, w⟩ =>
    if env.trigger t then ⟨phases ++ [label], t + 1, w + 1⟩
    else ⟨phases, t + 1, w⟩

/-- The `for agent in ...` trigger/wait loops of `evaluate`. -/
def agentLoop (env : WebhookEnv) (agents : List String) (s : WebhookStep) : WebhookStep :=
  agents.foldl (fun s a => agentRound env a s) s

/-- Embeds `PROBLEM_VALIDATION_AGENTS`. -/
def PROBLEM_VALIDATION_AGENTS : List String :=
  ["researcher", "market-analyst", "customer-discovery"]

/-- Embeds `SOLUTION_VALIDATION_AGENTS`. -/
def SOLUTION_VALIDATION_AGENTS : List String :=
  ["competitor-analyst", "resource-scout", "hypothesis-architect"]

/-- Embeds `WebhookOrchestrator.evaluate`: the scores are the in-source placeholder
constants 6.0 (problem) and 7.0 (solution); the elimination decisions compare
them (and their 0.6/0.4 combination) numerically against the threshold. -/
def webhook_evaluate (env : WebhookEnv) (threshold : ℚ) (problem_only : Bool)
    (problem session_id : String) : WebhookOrchestratorResult :=
  let s := agentLoop env PROBLEM_VALIDATION_AGENTS ⟨[], 0, 0⟩
  let s := agentRound env "scoring-evaluator-problem" s
  let problem_score : ℚ := 6.0
  if problem_score < threshold then
    let s := completionRound env "pivot-advisor" s
    let s := completionRound env "report-generator" s
    ⟨session_id, problem, problem_score, true, "See Mem0 for full report", s.phases⟩
  else if problem_only then
    ⟨session_id, problem, problem_score, false, "Problem validation only", s.phases⟩
  else
    let s := agentLoop env SOLUTION_VALIDATION_AGENTS s
    let s := agentRound env "scoring-evaluator-solution" s
    let solution_score : ℚ := 7.0
    let combined_score := problem_score * 0.6 + solution_score * 0.4
    let eliminated := decide (combined_score < threshold)
    let s := if eliminated then completionRound env "pivot-advisor" s else s
    let s := completionRound env "report-generator" s
    ⟨session_id, problem, combined_score, eliminated, "See Mem0 for full report", s.phases⟩

/-- C10.  The webhook verdict is independent of all agent outputs and
memory-poll responses: for any two environments and problem statements (same
threshold, same problem-only flag) the returned score and eliminated flag
coincide, and they are the fixed function of the threshold given by the
placeholder scores 6.0 and the combination 6.0*0.6+7.0*0.4. -/
theorem C10_webhook_verdict_constant (t : ℚ) (po : Bool) (env env' : WebhookEnv)
    (p p' sid sid' : String) :
    (webhook_evaluate env t po p sid).score = (webhook_evaluate env' t po p' sid').score ∧
    (webhook_evaluate env t po p sid).eliminated =
      (webhook_evaluate env' t po p' sid').eliminated ∧
    (webhook_evaluate env t po p sid).score =
      (if (6.0 : ℚ) < t then 6.0 else if po then 6.0 else 6.0 * 0.6 + 7.0 * 0.4) ∧
    (webhook_evaluate env t po p sid).eliminated =
      (if (6.0 : ℚ) < t then true else if po then false
       else decide ((6.0 * 0.6 + 7.0 * 0.4 : ℚ) < t)) := by
  unfold webhook_evaluate
  dsimp only
  by_cases h6 : (6.0 : ℚ) < t
  · simp [h6]
  · cases po <;> simp [h6]

/-- C3.  The combined total score is the weighted sum with weights 0.6
(problem) and 0.4 (solution): in the direct orchestrator every successful
solution phase stores exactly `0.6 * p + 0.4 * s` in the result, and in the
webhook orchestrator the full-validation run returns exactly the combination
of the placeholder scores, `6.0 * 0.6 + 7.0 * 0.4`. -/
theorem C3_weighted_combination :
    (∀ (be : AgentBackend) (mem : Option MemoryService) (st : PipelineState)
        (pv : Except PyErr String) (pr : ProblemValidationResult) (results : IdeaResult)
        (sr : SolutionValidationResult) (results' : IdeaResult) (st' : PipelineState)
        (ctx : String),
      solutionPhase be mem st pv pr results = Except.ok (sr, results', st', ctx) →
        results'.total_score = pr.problem_score * 0.6 + sr.solution_score * 0.4) ∧
    (∀ (env : WebhookEnv) (t : ℚ) (p sid : String), ¬((6.0 : ℚ) < t) →
      (webhook_evaluate env t false p sid).score = 6.0 * 0.6 + 7.0 * 0.4) := by
  constructor
  · intro be mem st pv pr results sr results' st' ctx h
    unfold solutionPhase at h
    dsimp only at h
    split at h
    · cases h
    · split at h
      · cases h
      · split at h
        · cases h
        · split at h
          · cases h
          · split at h
            · cases h
            · simp only [Except.ok.injEq, Prod.mk.injEq] at h
              obtain ⟨hsr, hres, -, -⟩ := h
              rw [← hres, ← hsr]
  · intro env t p sid h6
    unfold webhook_evaluate
    dsimp only
    rw [if_neg h6]
    rfl

/-- Constant backend for the C3 witness. -/
def beC3 : AgentBackend :=
  ⟨fun _ => some "sys", fun _ _ => Except.ok [⟨some "TOTAL: 4/10", none⟩]⟩

/-- The concrete solution-phase run used by the C3 witness. -/
def c3run : Except PyErr (SolutionValidationResult × IdeaResult × PipelineState × String) :=
  solutionPhase beC3 none (mkPipelineState "p" 5) (Except.ok "p") {} { topic := "p" }

/-- The solution result of `c3run`. -/
def c3sr : SolutionValidationResult :=
  match c3run with
  | Except.ok x => x.1
  | Except.error _ => {}

/-- The idea result of `c3run`. -/
def c3results : IdeaResult :=
  match c3run with
  | Except.ok x => x.2.1
  | Except.error _ => { topic := "" }

/-- The final state of `c3run`. -/
def c3st : PipelineState :=
  match c3run with
  | Except.ok x => x.2.2.1
  | Except.error _ => mkPipelineState "" 5

/-- The context string of `c3run`. -/
def c3ctx : String :=
  match c3run with
  | Except.ok x => x.2.2.2
  | Except.error _ => ""

/-- Witness for C3 at a concrete run of both orchestrators. -/
theorem C3_witness :
    c3results.total_score =
      ({} : ProblemValidationResult).problem_score * 0.6 + c3sr.solution_score * 0.4 ∧
    (webhook_evaluate ⟨fun _ => true, fun _ => some ()⟩ 5 false "p" "sid").score =
      6.0 * 0.6 + 7.0 * 0.4 := by
  have h := C3_weighted_combination
  exact ⟨h.1 beC3 none (mkPipelineState "p" 5) (Except.ok "p") {} { topic := "p" }
      c3sr c3results c3st c3ctx rfl,
    h.2 ⟨fun _ => true, fun _ => some ()⟩ 5 "p" "sid" (by norm_num)⟩

/-! ### `WebhookOrchestrator._wait_for_phase`

Real time is modelled discretely: polls are instantaneous, the k-th poll
happens after k sleeps of `poll_interval` seconds, and the loop guard
compares the elapsed time with `timeout` before each poll.  A poll can find
a result, find nothing, or raise (the `except` branch swallows it). -/

/-- Outcome of one Mem0 search poll. -/
inductive PollOutcome where
  | found (res : String)
  | empty
  | exc
deriving DecidableEq

/-- Whether a poll outcome carries a result. -/
def isFound : PollOutcome → Bool
  | PollOutcome.found _ => true
  | PollOutcome.empty => false
  | PollOutcome.exc => false

/-- The polling loop of `_wait_for_phase`, with the poll index `k` and enough
fuel (the loop runs at most `timeout` iterations when the interval is
positive). -/
def wait_loop (poll : Nat → PollOutcome) (timeout poll_interval : Nat) :
    Nat → Nat → Option String
  | _, 0 => none
  | k, fuel + 1 =>
    if k * poll_interval < timeout then
      match poll k with
      | PollOutcome.found r => some r
      | PollOutcome.empty => wait_loop poll timeout poll_interval (k + 1) fuel
      | PollOutcome.exc => wait_loop poll timeout poll_interval (k + 1) fuel
    else none

/-- Embeds `WebhookOrchestrator._wait_for_phase` (defaults: timeout 300,
poll_interval 10). -/
def wait_for_phase (poll : Nat → PollOutcome) (timeout poll_interval : Nat) : Option String :=
  wait_loop poll timeout poll_interval 0 (timeout + 1)

/-- Characterisation of the polling loop from any start index. -/
theorem wait_loop_spec (poll : Nat → PollOutcome) (timeout interval : Nat)
    (hI : 1 ≤ interval) :
    ∀ fuel k, timeout < k + fuel →
      ((∀ r, wait_loop poll timeout interval k fuel = some r ↔
        ∃ j, k ≤ j ∧ j * interval < timeout ∧ poll j = PollOutcome.found r ∧
          ∀ i, k ≤ i → i < j → isFound (poll i) = false) ∧
      (wait_loop poll timeout interval k fuel = none ↔
        ∀ j, k ≤ j → j * interval < timeout → isFound (poll j) = false)) := by
  intro fuel
  induction fuel with
  | zero =>
    intro k hk
    have hvac : ∀ j, k ≤ j → ¬(j * interval < timeout) := by
      intro j hkj hjt
      have hj : j ≤ j * interval := Nat.le_mul_of_pos_right j (by omega)
      omega
    constructor
    · intro r
      simp only [wait_loop]
      constructor
      · intro hc; cases hc
      · rintro ⟨j, hkj, hjt, -, -⟩
        exact absurd hjt (hvac j hkj)
    · simp only [wait_loop]
      constructor
      · intro _ j hkj hjt
        exact absurd hjt (hvac j hkj)
      · intro _; trivial
  | succ fuel ih =>
    intro k hk
    by_cases hcond : k * interval < timeout
    · cases hpk : poll k with
      | found r0 =>
        constructor
        · intro r
          simp only [wait_loop, if_pos hcond, hpk]
          constructor
          · intro hs
            injection hs with hs
            exact ⟨k, Nat.le_refl k, hcond, by rw [hpk, hs],
              fun i h1 h2 => absurd (Nat.lt_of_le_of_lt h1 h2) (lt_irrefl k)⟩
          · rintro ⟨j, hkj, hjt, hf, hmin⟩
            rcases Nat.eq_or_lt_of_le hkj with heq | hlt
            · rw [← heq, hpk] at hf
              injection hf with hf
              rw [hf]
            · have hcontra := hmin k (Nat.le_refl k) hlt
              rw [hpk] at hcontra
              cases hcontra
        · simp only [wait_loop, if_pos hcond, hpk]
          constructor
          · intro hc; cases hc
          · intro hall
            have hcontra := hall k (Nat.le_refl k) hcond
            rw [hpk] at hcontra
            cases hcontra
      | empty =>
        have hrec := ih (k + 1) (by omega)
        have hstep : wait_loop poll timeout interval k (fuel + 1) =
            wait_loop poll timeout interval (k + 1) fuel := by
          simp only [wait_loop, if_pos hcond, hpk]
        constructor
        · intro r
          rw [hstep, hrec.1 r]
          constructor
          · rintro ⟨j, hkj, hjt, hf, hmin⟩
            refine ⟨j, by omega, hjt, hf, fun i h1 h2 => ?_⟩
            rcases Nat.eq_or_lt_of_le h1 with heq | h3
            · rw [← heq, hpk]; rfl
            · exact hmin i h3 h2
          · rintro ⟨j, hkj, hjt, hf, hmin⟩
            have hjk : j ≠ k := by
              intro hjeq
              rw [hjeq, hpk] at hf
              cases hf
            exact ⟨j, by omega, hjt, hf, fun i h1 h2 => hmin i (by omega) h2⟩
        · rw [hstep, hrec.2]
          constructor
          · intro hall j h1 h2
            rcases Nat.eq_or_lt_of_le h1 with heq | h3
            · rw [← heq, hpk]; rfl
            · exact hall j h3 h2
          · intro hall j h1 h2
            exact hall j (by omega) h2
      | exc =>
        have hrec := ih (k + 1) (by omega)
        have hstep : wait_loop poll timeout interval k (fuel + 1) =
            wait_loop poll timeout interval (k + 1) fuel := by
          simp only [wait_loop, if_pos hcond, hpk]
        constructor
        · intro r
          rw [hstep, hrec.1 r]
          constructor
          · rintro ⟨j, hkj, hjt, hf, hmin⟩
            refine ⟨j, by omega, hjt, hf, fun i h1 h2 => ?_⟩
            rcases Nat.eq_or_lt_of_le h1 with heq | h3
            · rw [← heq, hpk]; rfl
            · exact hmin i h3 h2
          · rintro ⟨j, hkj, hjt, hf, hmin⟩
            have hjk : j ≠ k := by
              intro hjeq
              rw [hjeq, hpk] at hf
              cases hf
            exact ⟨j, by omega, hjt, hf, fun i h1 h2 => hmin i (by omega) h2⟩
        · rw [hstep, hrec.2]
          constructor
          · intro hall j h1 h2
            rcases Nat.eq_or_lt_of_le h1 with heq | h3
            · rw [← heq, hpk]; rfl
            · exact hall j h3 h2
          · intro hall j h1 h2
            exact hall j (by omega) h2
    · have hvac : ∀ j, k ≤ j → ¬(j * interval < timeout) := by
        intro j hkj hjt
        have hmul : k * interval ≤ j * interval := Nat.mul_le_mul_right interval hkj
        omega
      constructor
      · intro r
        simp only [wait_loop, if_neg hcond]
        constructor
        · intro hc; cases hc
        · rintro ⟨j, hkj, hjt, -, -⟩
          exact absurd hjt (hvac j hkj)
      · simp only [wait_loop, if_neg hcond]
        constructor
        · intro _ j hkj hjt
          exact absurd hjt (hvac j hkj)
        · intro _; trivial

/-- C8.  With a positive poll interval, `_wait_for_phase` returns the first
result any poll finds before `timeout` seconds have elapsed (polls happen at
times `k * poll_interval < timeout`; empty polls and swallowed per-poll
exceptions both just wait), and it returns `None` exactly when no poll made
before the timeout finds a result. -/
theorem C8_wait_for_phase_poll_semantics (poll : Nat → PollOutcome)
    (timeout interval : Nat) (hI : 1 ≤ interval) :
    (∀ r, wait_for_phase poll timeout interval = some r ↔
      ∃ j, j * interval < timeout ∧ poll j = PollOutcome.found r ∧
        ∀ i, i < j → isFound (poll i) = false) ∧
    (wait_for_phase poll timeout interval = none ↔
      ∀ j, j * interval < timeout → isFound (poll j) = false) := by
  have h := wait_loop_spec poll timeout interval hI (timeout + 1) 0 (by omega)
  constructor
  · intro r
    rw [show wait_for_phase poll timeout interval =
      wait_loop poll timeout interval 0 (timeout + 1) from rfl, h.1 r]
    constructor
    · rintro ⟨j, -, hjt, hf, hmin⟩
      exact ⟨j, hjt, hf, fun i hi => hmin i (Nat.zero_le i) hi⟩
    · rintro ⟨j, hjt, hf, hmin⟩
      exact ⟨j, Nat.zero_le j, hjt, hf, fun i _ hi => hmin i hi⟩
  · rw [show wait_for_phase poll timeout interval =
      wait_loop poll timeout interval 0 (timeout + 1) from rfl, h.2]
    constructor
    · intro hall j hjt
      exact hall j (Nat.zero_le j) hjt
    · intro hall j _ hjt
      exact hall j hjt

/-- Poll stream for the C8 witness: the second poll finds a result. -/
def pollC8 : Nat → PollOutcome :=
  fun k => if k = 1 then PollOutcome.found "hit" else PollOutcome.exc

/-- Witness for C8: with poll interval 10 and timeout 25, the result found at
the second poll (10 seconds in, first poll swallowed an exception) is
returned. -/
theorem C8_witness : 1 ≤ 10 ∧ wait_for_phase pollC8 25 10 = some "hit" := by
  have h := C8_wait_for_phase_poll_semantics pollC8 25 10 (by norm_num)
  refine ⟨by norm_num, ?_⟩
  rw [h.1 "hit"]
  refine ⟨1, by norm_num, rfl, fun i hi => ?_⟩
  have h0 : i = 0 := by omega
  rw [h0]
  rfl
